import Mathlib

/-!
Verification of the ResuMatch ranking-and-summarization pipeline.

The development shallowly embeds the core of the repository:
  - `src/Backend/services/summarizer.py` (async summarizer client),
  - `src/Summarizer.py` (standalone batch summarizer),
  - `src/Backend/routes/resume.py` (the `rank_and_summarize_resume_items`
    orchestrator).

External effects are modelled explicitly: the text-generation endpoint is an
oracle function from the request and the attempt number to an outcome, the
embedding model is an oracle from the item index to a similarity score, and
the traced summarizer additionally reports which attempt numbers actually
reached the endpoint and which backoff sleeps were performed.
-/

namespace ResuMatch

/-! ### Python string primitives

Character-level models of the Python `str` methods the summarizers use:
`str.strip()` (no arguments strips whitespace from both ends),
`str.lstrip(chars)` (strips any leading characters drawn from `chars`), and
`str.capitalize()` (first character uppercased, the rest lowercased).
-/

/-- The whitespace characters stripped by the Python `str.strip()` method
(space, tab, newline, carriage return, vertical tab, form feed). -/
def pyWhitespace : List Char := [' ', '\t', '\n', '\x0d', '\x0b', '\x0c']

/-- Python `s.lstrip(chars)`: drop the longest run of leading characters of
`s` that belong to `chars`. -/
def pyLstripChars (chars : List Char) (s : String) : String :=
  String.mk (s.toList.dropWhile (fun c => chars.contains c))

/-- Python `s.rstrip(chars)`: drop the longest run of trailing characters of
`s` that belong to `chars`. -/
def pyRstripChars (chars : List Char) (s : String) : String :=
  String.mk ((s.toList.reverse.dropWhile (fun c => chars.contains c)).reverse)

/-- Python `s.strip()`: strip whitespace from both ends. -/
def pyStrip (s : String) : String :=
  pyRstripChars pyWhitespace (pyLstripChars pyWhitespace s)

/-- Python `s.capitalize()`: uppercase the first character, lowercase the
rest. -/
def pyCapitalize (s : String) : String :=
  match s.toList with
  | [] => ""
  | c :: cs => String.mk (c.toUpper :: cs.map Char.toLower)

/-- Splitting a character list at every newline character. The accumulator
holds the current field in reverse. -/
def splitNewlineAux : List Char → List Char → List (List Char)
  | [], acc => [acc.reverse]
  | c :: cs, acc =>
    if c = '\n' then acc.reverse :: splitNewlineAux cs []
    else splitNewlineAux cs (c :: acc)

/-- Python `s.split("\n")`: the fields of `s` between newline characters
(adjacent newlines give empty fields, and the empty string gives one empty
field). -/
def pySplitNewline (s : String) : List String :=
  (splitNewlineAux s.toList []).map String.mk

/-! ### Chat-completion API data model

The request carries the exact sampling parameters both source files pass to
`client.chat.completions.create`; the successful response carries the
generated text and the token-accounting metadata the code copies out of the
client response object.
-/

/-- One chat message (a role and its content). -/
structure ChatMessage where
  role : String
  content : String
deriving DecidableEq

/-- The request sent to the chat-completions endpoint. -/
structure ApiRequest where
  model : String
  messages : List ChatMessage
  temperature : ℚ
  max_tokens : ℕ
  stream : Bool
deriving DecidableEq

/-- The token usage block copied from the client response. -/
structure ApiUsage where
  prompt_tokens : ℕ
  completion_tokens : ℕ
  total_tokens : ℕ
deriving DecidableEq

/-- The dictionary returned by a successful `call_deepseek_api` /
`call_deepseek_api_async` call: the generated content plus usage metadata. -/
structure ApiSuccess where
  content : String
  usage : ApiUsage
deriving DecidableEq

/-- The outcome of one attempt against the external endpoint: either a
successful response, or an exception carrying an error message. -/
inductive ApiOutcome where
  | ok (response : ApiSuccess)
  | err (message : String)
deriving DecidableEq

/-- An endpoint oracle: given the request and the attempt number, the
outcome of that attempt. -/
def Endpoint : Type := ApiRequest → ℕ → ApiOutcome

/-- The traced result of one `call_deepseek_api(_async)` invocation:
the value returned (or the final exception propagated), the list of backoff
sleeps performed (in time units), and the attempt numbers that actually
reached the endpoint. -/
structure CallResult where
  result : Except String ApiSuccess
  sleeps : List ℕ
  tried : List ℕ

/-! ### Backend summarizer service (`src/Backend/services/summarizer.py`) -/

/-- The system message of `summarize_item`
(`src/Backend/services/summarizer.py` line 80). -/
def backend_system_message : String :=
  "You are a professional resume writer who creates impactful, concise bullet points that highlight technical achievements and skills."

/-- The user message of `summarize_item`
(`src/Backend/services/summarizer.py` lines 81-95): the f-string with the
item type, the capitalized item type, the title, and the bullet text joined
with newlines substituted in. -/
def backend_user_message (item_type title : String) (description_bullets : List String) : String :=
  "Please summarize the following " ++ item_type ++
  " description into 2-3 concise bullet points suitable for a resume. \n" ++
  "Each bullet point should:\n" ++
  "- Start with a strong action verb\n" ++
  "- Highlight key technical skills, technologies, or achievements\n" ++
  "- Be clear and impactful for resume readers\n" ++
  "- Use professional, achievement-oriented language\n" ++
  "\n" ++
  pyCapitalize item_type ++ " Title: " ++ title ++ "\n" ++
  "\n" ++
  "Description Bullets:\n" ++
  String.intercalate "\n" description_bullets ++ "\n" ++
  "\n" ++
  "Provide only the 2-3 bullet points, nothing else. Do not include dashes or any other formatting - just the text of each point on separate lines."

/-- The two-message exchange `summarize_item` sends
(`src/Backend/services/summarizer.py` lines 97-100). -/
def backend_messages (item_type title : String) (description_bullets : List String) :
    List ChatMessage :=
  [ { role := "system", content := backend_system_message },
    { role := "user", content := backend_user_message item_type title description_bullets } ]

/-- The request `call_deepseek_api_async` builds
(`src/Backend/services/summarizer.py` lines 41-47): fixed temperature 0.7,
output cap 512 tokens, no streaming. -/
def backend_request (model : String) (messages : List ChatMessage) : ApiRequest :=
  { model := model, messages := messages,
    temperature := 7 / 10, max_tokens := 512, stream := false }

/-- The retry loop body of `call_deepseek_api_async`
(`src/Backend/services/summarizer.py` lines 38-62): iterate over the listed
attempt numbers; on success return at once, on an exception sleep
`2 ^ attempt` and continue when the attempt number is below
`max_retries - 1`, otherwise re-raise the exception. -/
def backendAttemptLoop (endpoint : Endpoint) (req : ApiRequest) (max_retries : ℕ) :
    List ℕ → CallResult
  | [] => { result := Except.error "loop exhausted", sleeps := [], tried := [] }
  | attempt :: rest =>
    match endpoint req attempt with
    | ApiOutcome.ok response =>
        { result := Except.ok response, sleeps := [], tried := [attempt] }
    | ApiOutcome.err e =>
        if attempt < max_retries - 1 then
          let r := backendAttemptLoop endpoint req max_retries rest
          { result := r.result, sleeps := 2 ^ attempt :: r.sleeps, tried := attempt :: r.tried }
        else
          { result := Except.error e, sleeps := [], tried := [attempt] }

/-- The async API client `call_deepseek_api_async`
(`src/Backend/services/summarizer.py` lines 31-62): `max_retries = 3`
attempts over `range(3)`. The call site passes no model argument, so the
default "deepseek-chat" is used. -/
def call_deepseek_api_async (endpoint : Endpoint) (messages : List ChatMessage)
    (model : String) : CallResult :=
  backendAttemptLoop endpoint (backend_request model messages) 3 (List.range 3)

/-- The bullet glyphs stripped from the front of each summary line
(the Python character set of bullet, asterisk, hyphen, en dash, em dash). -/
def bulletGlyphs : List Char := ['•', '*', '-', '–', '—']

/-- The bullet-line parse of `summarize_item`
(`src/Backend/services/summarizer.py` lines 107-109): split the stripped raw
summary on newlines, keep the lines that are nonempty after stripping, and
map each kept line to `line.strip().lstrip(glyphs).strip()`. -/
def backend_bullet_lines (raw_summary : String) : List String :=
  ((pySplitNewline raw_summary).filter (fun line => pyStrip line ≠ "")).map
    (fun line => pyStrip (pyLstripChars bulletGlyphs (pyStrip line)))

/-- A résumé item as the dynamic dictionary flowing through the pipeline.
Optional fields model dictionary keys that may be absent (`none` = the key
is missing). The stored work-experience documents carry a `work_ex_id` and
never a `project_id`; project documents carry a `project_id` and never a
`work_ex_id`. A stored `description_bullets` of null is modelled as the
empty list (both are falsy in the guard of `summarize_item`). The spec
speaks of a success flag on summarization results, so the dictionary is
given an optional `success` entry in order to express what the backend code
writes to it (namely: nothing). -/
structure Item where
  work_ex_id : Option String := none
  job_title : Option String := none
  company_name : Option String := none
  location : Option String := none
  start_date : Option String := none
  end_date : Option String := none
  project_id : Option String := none
  project_name : Option String := none
  repository_url : Option String := none
  description_bullets : List String := []
  score : Option ℚ := none
  success : Option Bool := none
deriving DecidableEq

/-- The title computed by `summarize_item`
(`src/Backend/services/summarizer.py` lines 69-72): job title at company
for a work experience, the project name otherwise. -/
def summarize_title (item : Item) (item_type : String) : String :=
  if item_type = "work experience" then
    item.job_title.getD "Job" ++ " at " ++ item.company_name.getD "Company"
  else
    item.project_name.getD "Project"

/-- The traced translation of `summarize_item`
(`src/Backend/services/summarizer.py` lines 64-120). Returns the item
together with the list of attempt numbers that reached the external
endpoint. With empty bullets the item is returned at once and no attempt is
made. On a successful call the parsed bullet lines replace
`description_bullets`; on the final exception the error is only logged and
the item is returned unchanged. -/
def summarize_itemT (endpoint : Endpoint) (item : Item) (item_type : String) :
    Item × List ℕ :=
  let title := summarize_title item item_type
  let description_bullets := item.description_bullets
  if description_bullets = [] then (item, [])
  else
    let messages := backend_messages item_type title description_bullets
    let call := call_deepseek_api_async endpoint messages "deepseek-chat"
    match call.result with
    | Except.ok response =>
        let raw_summary := pyStrip response.content
        let bullet_lines := backend_bullet_lines raw_summary
        ({ item with description_bullets := bullet_lines }, call.tried)
    | Except.error _ => (item, call.tried)

/-- The value `summarize_item` hands back to the orchestrator. -/
def summarize_item (endpoint : Endpoint) (item : Item) (item_type : String) : Item :=
  (summarize_itemT endpoint item item_type).1

/-! ### Standalone batch summarizer (`src/Summarizer.py`)

The standalone script is translated separately (its own literals, its own
retry loop) so that the equivalence with the backend service is a theorem
about two independent embeddings rather than a definitional accident.
-/

/-- The system message of `summarize_description_bullets`
(`src/Summarizer.py` line 47). -/
def standalone_system_message : String :=
  "You are a professional resume writer who creates impactful, concise bullet points that highlight technical achievements and skills."

/-- The user message of `summarize_description_bullets`
(`src/Summarizer.py` lines 50-64). -/
def standalone_user_message (item_type title : String) (description_bullets : List String) : String :=
  "Please summarize the following " ++ item_type ++
  " description into 2-3 concise bullet points suitable for a resume. \n" ++
  "Each bullet point should:\n" ++
  "- Start with a strong action verb\n" ++
  "- Highlight key technical skills, technologies, or achievements\n" ++
  "- Be clear and impactful for resume readers\n" ++
  "- Use professional, achievement-oriented language\n" ++
  "\n" ++
  pyCapitalize item_type ++ " Title: " ++ title ++ "\n" ++
  "\n" ++
  "Description Bullets:\n" ++
  String.intercalate "\n" description_bullets ++ "\n" ++
  "\n" ++
  "Provide only the 2-3 bullet points, nothing else. Do not include dashes or any other formatting - just the text of each point on separate lines."

/-- The two-message exchange `summarize_description_bullets` sends
(`src/Summarizer.py` lines 66-69). -/
def standalone_messages (item_type title : String) (description_bullets : List String) :
    List ChatMessage :=
  [ { role := "system", content := standalone_system_message },
    { role := "user", content := standalone_user_message item_type title description_bullets } ]

/-- The request `call_deepseek_api` builds (`src/Summarizer.py` lines
21-27): fixed temperature 0.7, output cap 512 tokens, no streaming. -/
def standalone_request (model : String) (messages : List ChatMessage) : ApiRequest :=
  { model := model, messages := messages,
    temperature := 7 / 10, max_tokens := 512, stream := false }

/-- The retry loop body of `call_deepseek_api`
(`src/Summarizer.py` lines 18-42). -/
def standaloneAttemptLoop (endpoint : Endpoint) (req : ApiRequest) (max_retries : ℕ) :
    List ℕ → CallResult
  | [] => { result := Except.error "loop exhausted", sleeps := [], tried := [] }
  | attempt :: rest =>
    match endpoint req attempt with
    | ApiOutcome.ok response =>
        { result := Except.ok response, sleeps := [], tried := [attempt] }
    | ApiOutcome.err e =>
        if attempt < max_retries - 1 then
          let r := standaloneAttemptLoop endpoint req max_retries rest
          { result := r.result, sleeps := 2 ^ attempt :: r.sleeps, tried := attempt :: r.tried }
        else
          { result := Except.error e, sleeps := [], tried := [attempt] }

/-- The synchronous API client `call_deepseek_api`
(`src/Summarizer.py` lines 16-42): `max_retries = 3` attempts over
`range(3)`. `summarize_description_bullets` passes the module-level model
name "deepseek-chat" explicitly. -/
def call_deepseek_api (endpoint : Endpoint) (messages : List ChatMessage)
    (model : String) : CallResult :=
  standaloneAttemptLoop endpoint (standalone_request model messages) 3 (List.range 3)

/-- The bullet-line parse of `summarize_description_bullets`
(`src/Summarizer.py` lines 76-78). -/
def standalone_bullet_lines (raw_summary : String) : List String :=
  ((pySplitNewline raw_summary).filter (fun line => pyStrip line ≠ "")).map
    (fun line => pyStrip (pyLstripChars bulletGlyphs (pyStrip line)))

/-! ### Ranking orchestrator (`src/Backend/routes/resume.py`)

`rank_and_summarize_resume_items` (lines 374-503). The sentence-embedding
model is external; its per-item cosine scores enter the model as an oracle
`scoreFn` from the item position in `items_to_rank` to the score, exactly
the role of `cosine_scores[0][i].item()` in the source. Python `list.sort`
with a key and `reverse=True` is a stable descending sort; it is modelled by
`List.insertionSort`, which is stable and sorts by the same relation. -/

/-- The descending-by-score ordering used for `ranked_items.sort(key=lambda
x: x[0], reverse=True)` (line 449): tuple `a` precedes tuple `b` when the
score of `b` is at most the score of `a`. -/
def scoreDescRel (a b : ℚ × String × Item) : Prop := b.1 ≤ a.1

instance : DecidableRel scoreDescRel :=
  fun a b => inferInstanceAs (Decidable (b.1 ≤ a.1))

instance : IsTotal (ℚ × String × Item) scoreDescRel :=
  ⟨fun a b => le_total b.1 a.1⟩

instance : IsTrans (ℚ × String × Item) scoreDescRel :=
  ⟨fun _ _ _ h1 h2 => le_trans h2 h1⟩

/-- The score key used by the final re-sort `final_work_ex.sort(key=lambda
x: x.score, reverse=True)` (lines 490-491). After validation every item
carries a score; a missing score reads as 0. -/
def itemScore (it : Item) : ℚ := it.score.getD 0

/-- The descending-by-score ordering on items for the final re-sort. -/
def itemDescRel (a b : Item) : Prop := itemScore b ≤ itemScore a

instance : DecidableRel itemDescRel :=
  fun a b => inferInstanceAs (Decidable (itemScore b ≤ itemScore a))

instance : IsTotal Item itemDescRel :=
  ⟨fun a b => le_total (itemScore b) (itemScore a)⟩

instance : IsTrans Item itemDescRel :=
  ⟨fun _ _ _ h1 h2 => le_trans h2 h1⟩

/-- The `items_to_rank` list (lines 422-430): every work experience tagged
"Work Ex", then every project tagged "Project", each with its combined
description text (the bullets joined by ". "). -/
def items_to_rank (work_experience projects : List Item) : List (String × Item × String) :=
  work_experience.map (fun w => ("Work Ex", w, String.intercalate ". " w.description_bullets)) ++
  projects.map (fun p => ("Project", p, String.intercalate ". " p.description_bullets))

/-- The `ranked_items` list before sorting (lines 442-447): for index `i`,
the tuple of the score of item `i`, its category, and the item with its
`score` entry assigned. -/
def annotateStep (scoreFn : ℕ → ℚ) (items : List (String × Item × String)) :
    List (ℚ × String × Item) :=
  items.enum.map (fun p => (scoreFn p.1, p.2.1, { p.2.2.1 with score := some (scoreFn p.1) }))

/-- The ranking step (lines 442-449): annotate with scores, then stable-sort
descending by score. -/
def rankStep (scoreFn : ℕ → ℚ) (items : List (String × Item × String)) :
    List (ℚ × String × Item) :=
  List.insertionSort scoreDescRel (annotateStep scoreFn items)

/-- The top-K filtering loop (lines 452-459): walk the ranked list, keeping
a work-experience item while fewer than 2 are kept and otherwise a project
item while fewer than 3 are kept. -/
def filterLoop : List (ℚ × String × Item) → List Item → List Item → List Item × List Item
  | [], top_work_ex_items, top_project_items => (top_work_ex_items, top_project_items)
  | (_, category, item_data) :: rest, tw, tp =>
    if category = "Work Ex" ∧ tw.length < 2 then
      filterLoop rest (tw ++ [item_data]) tp
    else if category = "Project" ∧ tp.length < 3 then
      filterLoop rest tw (tp ++ [item_data])
    else
      filterLoop rest tw tp

/-- The selection step: the filtering loop started with empty
accumulators. -/
def selectStep (ranked : List (ℚ × String × Item)) : List Item × List Item :=
  filterLoop ranked [] []

/-- The summarization task list (lines 464-468): one task per selected work
experience (item type "work experience"), then one per selected project
(item type "project"), in that order. -/
def pipelineTasks (scoreFn : ℕ → ℚ) (work_experience projects : List Item) :
    List (Item × String) :=
  let sel := selectStep (rankStep scoreFn (items_to_rank work_experience projects))
  sel.1.map (fun it => (it, "work experience")) ++ sel.2.map (fun it => (it, "project"))

/-- `RankedWorkExperience.model_validate` (line 485): requires the fields
`work_ex_id`, `job_title`, `company_name` and `score` of the pydantic model
to be present; on success the item is accepted. -/
def validateRankedWorkExperience (it : Item) : Option Item :=
  if it.work_ex_id.isSome ∧ it.job_title.isSome ∧ it.company_name.isSome ∧ it.score.isSome
  then some it else none

/-- `RankedProject.model_validate` (line 487): requires `project_id`,
`project_name` and `score` to be present. -/
def validateRankedProject (it : Item) : Option Item :=
  if it.project_id.isSome ∧ it.project_name.isSome ∧ it.score.isSome
  then some it else none

/-- The membership test `'work_ex_id' in item and item['work_ex_id'] in
work_ex_ids` (line 484). -/
def workMatch (work_ex_ids : List String) (it : Item) : Prop :=
  it.work_ex_id.elim False (fun wid => wid ∈ work_ex_ids)

instance (ids : List String) (it : Item) : Decidable (workMatch ids it) :=
  match h : it.work_ex_id with
  | some wid => decidable_of_iff (wid ∈ ids) (by simp [workMatch, h])
  | none => isFalse (by simp [workMatch, h])

/-- The membership test `'project_id' in item and item['project_id'] in
project_ids` (line 486). -/
def projMatch (project_ids : List String) (it : Item) : Prop :=
  it.project_id.elim False (fun pid => pid ∈ project_ids)

instance (ids : List String) (it : Item) : Decidable (projMatch ids it) :=
  match h : it.project_id with
  | some pid => decidable_of_iff (pid ∈ ids) (by simp [projMatch, h])
  | none => isFalse (by simp [projMatch, h])

/-- The reassembly loop (lines 483-487): route every returned item into the
work-experience list when its `work_ex_id` is one of the selected
work-experience identifiers, otherwise into the project list when its
`project_id` is one of the selected project identifiers; validation runs
inside the loop and a failure raises out of the whole step (caught as an
internal error). -/
def reassembleLoop (work_ex_ids project_ids : List String) :
    List Item → List Item → List Item → Except String (List Item × List Item)
  | [], final_work_ex, final_projects => Except.ok (final_work_ex, final_projects)
  | item :: rest, fw, fp =>
    if workMatch work_ex_ids item then
      match validateRankedWorkExperience item with
      | some v => reassembleLoop work_ex_ids project_ids rest (fw ++ [v]) fp
      | none => Except.error "RankedWorkExperience validation failed"
    else if projMatch project_ids item then
      match validateRankedProject item with
      | some v => reassembleLoop work_ex_ids project_ids rest fw (fp ++ [v])
      | none => Except.error "RankedProject validation failed"
    else
      reassembleLoop work_ex_ids project_ids rest fw fp

instance {ε α : Type _} [DecidableEq ε] [DecidableEq α] : DecidableEq (Except ε α) :=
  fun a b =>
    match a, b with
    | Except.ok x, Except.ok y => decidable_of_iff (x = y) (by simp)
    | Except.error x, Except.error y => decidable_of_iff (x = y) (by simp)
    | Except.ok _, Except.error _ => isFalse (by simp)
    | Except.error _, Except.ok _ => isFalse (by simp)

/-- The response of the ranking endpoint: the two final ordered lists. -/
structure RankResponse where
  top_work_experiences : List Item
  top_projects : List Item
deriving DecidableEq

/-- The pipeline of `rank_and_summarize_resume_items` after the resume
document has been fetched (lines 422-496): build `items_to_rank`, return
the empty response at once when it is empty, otherwise rank, select, run
one summarization task per selected item (the `asyncio.gather` join
returns the per-task results in task order), reassemble by identifier, and
re-sort each final list descending by score. `endpointFor` gives the
endpoint oracle seen by each task. Any error inside the steps aborts the
whole request. -/
def rank_core (scoreFn : ℕ → ℚ) (endpointFor : ℕ → Endpoint)
    (work_experience projects : List Item) : Except String RankResponse :=
  let items := items_to_rank work_experience projects
  if items.isEmpty then Except.ok { top_work_experiences := [], top_projects := [] }
  else
    let ranked_items := rankStep scoreFn items
    let sel := selectStep ranked_items
    let top_work_ex_items := sel.1
    let top_project_items := sel.2
    let tasks := top_work_ex_items.map (fun it => (it, "work experience")) ++
                 top_project_items.map (fun it => (it, "project"))
    let summarized_results := tasks.enum.map
      (fun p => summarize_item (endpointFor p.1) p.2.1 p.2.2)
    let work_ex_ids := top_work_ex_items.filterMap Item.work_ex_id
    let project_ids := top_project_items.filterMap Item.project_id
    match reassembleLoop work_ex_ids project_ids summarized_results [] [] with
    | Except.error e => Except.error e
    | Except.ok (fw, fp) =>
        Except.ok { top_work_experiences := List.insertionSort itemDescRel fw,
                    top_projects := List.insertionSort itemDescRel fp }

/-- The HTTP error outcomes of the ranking endpoint. -/
inductive HttpError where
  | serviceUnavailable (detail : String)
  | badRequest
  | notFound
  | forbidden
  | internalError (detail : String)
deriving DecidableEq

/-- The projection of the stored resume document the endpoint fetches
(line 406): owner identifier, work experiences, projects. -/
structure ResumeDoc where
  user_id : String
  work_experience : List Item
  projects : List Item

/-- The full request handler `rank_and_summarize_resume_items`
(lines 374-503): precondition checks on the two global singletons first
(embedding model loaded, summarizer client configured), then ObjectId
validity, then the fetch (`none` models a missing document), then the
ownership check, and only then the ranking pipeline, whose internal errors
surface as an internal server error. -/
def rank_and_summarize_resume_items (st_model_loaded deepseek_model_loaded : Bool)
    (valid_object_id : Bool) (resume_data : Option ResumeDoc) (current_user_id : String)
    (scoreFn : ℕ → ℚ) (endpointFor : ℕ → Endpoint) : Except HttpError RankResponse :=
  if st_model_loaded = false then
    Except.error (HttpError.serviceUnavailable "The local AI ranking model is not loaded.")
  else if deepseek_model_loaded = false then
    Except.error (HttpError.serviceUnavailable "The summarization service is not available.")
  else if valid_object_id = false then
    Except.error HttpError.badRequest
  else
    match resume_data with
    | none => Except.error HttpError.notFound
    | some resume =>
      if resume.user_id ≠ current_user_id then
        Except.error HttpError.forbidden
      else
        match rank_core scoreFn endpointFor resume.work_experience resume.projects with
        | Except.ok r => Except.ok r
        | Except.error e => Except.error (HttpError.internalError e)

/-! ### Concrete fixtures used by witnesses and counterexamples -/

/-- An endpoint that fails every attempt with the same exception. -/
def wFailEndpoint : Endpoint := fun _ _ => ApiOutcome.err "boom"

/-- A fixed successful response whose content is the raw model output of the
parsing example. -/
def wOkResponse : ApiSuccess :=
  { content := "- Built X\n* Improved Y\n\nLed Z", usage := ⟨100, 30, 130⟩ }

/-- An endpoint that succeeds on every attempt with `wOkResponse`. -/
def wOkEndpoint : Endpoint := fun _ _ => ApiOutcome.ok wOkResponse

/-- A stored work-experience item with the required fields present. -/
def wWorkItem : Item :=
  { work_ex_id := some "work-1", job_title := some "Developer",
    company_name := some "Acme", description_bullets := ["did x", "did y"] }

/-- A stored project item with the required fields present. -/
def wProjItem : Item :=
  { project_id := some "proj-1", project_name := some "Visualizer",
    description_bullets := ["built z"] }

/-- A project item with an empty bullet list. -/
def wEmptyItem : Item :=
  { project_id := some "proj-0", project_name := some "Empty" }

/-- A concrete score oracle built from literals only. -/
def wScoreFn : ℕ → ℚ := fun i => if i = 0 then 1 else 0

/-- A per-task endpoint assignment: task 0 always fails, every other task
always succeeds. -/
def wEndpointFor : ℕ → Endpoint := fun n => if n = 0 then wFailEndpoint else wOkEndpoint

/-! ### Claim C2 (retry policy) -/

/-- Claim C2, counterexample: at an endpoint that fails every attempt, the
backend client sleeps exactly twice, 1 unit and then 2 units, between its 3
attempts; the backoff-delay sequence is not the claimed 1, 2, 4. -/
theorem C2_counterexample :
    (call_deepseek_api_async wFailEndpoint [] "deepseek-chat").sleeps = [1, 2] ∧
    (call_deepseek_api_async wFailEndpoint [] "deepseek-chat").sleeps ≠ [1, 2, 4] := by
  constructor
  · rfl
  · intro h
    simp [call_deepseek_api_async, backendAttemptLoop, wFailEndpoint] at h

/-- Claim C2 (amended): on a request whose first three attempts all fail,
both the backend client `call_deepseek_api_async` and the standalone client
`call_deepseek_api` make exactly 3 attempts (numbers 0, 1, 2), sleep
`2 ^ attempt` units after each failed non-final attempt — so the realized
backoff delays are 1 and 2, with no wait after the final failure — and
propagate the failure carrying the last error only after the 3rd attempt
has failed. -/
theorem C2_retry_policy (endpoint : Endpoint) (messages : List ChatMessage) (model : String)
    (e0 e1 e2 : String)
    (h0 : endpoint (backend_request model messages) 0 = ApiOutcome.err e0)
    (h1 : endpoint (backend_request model messages) 1 = ApiOutcome.err e1)
    (h2 : endpoint (backend_request model messages) 2 = ApiOutcome.err e2) :
    (call_deepseek_api_async endpoint messages model).tried = [0, 1, 2] ∧
    (call_deepseek_api_async endpoint messages model).sleeps = [1, 2] ∧
    (call_deepseek_api_async endpoint messages model).result = Except.error e2 ∧
    (call_deepseek_api endpoint messages model).tried = [0, 1, 2] ∧
    (call_deepseek_api endpoint messages model).sleeps = [1, 2] ∧
    (call_deepseek_api endpoint messages model).result = Except.error e2 := by
  have hr : List.range 3 = [0, 1, 2] := rfl
  have hs0 : endpoint (standalone_request model messages) 0 = ApiOutcome.err e0 := h0
  have hs1 : endpoint (standalone_request model messages) 1 = ApiOutcome.err e1 := h1
  have hs2 : endpoint (standalone_request model messages) 2 = ApiOutcome.err e2 := h2
  refine ⟨?_, ?_, ?_, ?_, ?_, ?_⟩ <;>
    simp [call_deepseek_api_async, call_deepseek_api, hr, backendAttemptLoop,
      standaloneAttemptLoop, h0, h1, h2, hs0, hs1, hs2]

/-- Witness for C2: the amended retry policy evaluated at the concrete
always-failing endpoint. -/
theorem C2_retry_policy_witness :
    (call_deepseek_api_async wFailEndpoint [] "deepseek-chat").tried = [0, 1, 2] ∧
    (call_deepseek_api_async wFailEndpoint [] "deepseek-chat").sleeps = [1, 2] ∧
    (call_deepseek_api_async wFailEndpoint [] "deepseek-chat").result = Except.error "boom" ∧
    (call_deepseek_api wFailEndpoint [] "deepseek-chat").tried = [0, 1, 2] ∧
    (call_deepseek_api wFailEndpoint [] "deepseek-chat").sleeps = [1, 2] ∧
    (call_deepseek_api wFailEndpoint [] "deepseek-chat").result = Except.error "boom" :=
  C2_retry_policy wFailEndpoint [] "deepseek-chat" "boom" "boom" "boom" rfl rfl rfl

/-! ### Claim C4 (bullet-line parsing) -/

/-- Claim C4: the bullet-line parser keeps nonempty lines of the split raw
output with leading bullet glyphs and whitespace stripped, so the raw model
output "- Built X\n* Improved Y\n\nLed Z" parses to
["Built X", "Improved Y", "Led Z"]; and on a successful call the parse of
the returned content replaces the previous bullet list of the item. -/
theorem C4_bullet_parsing :
    backend_bullet_lines (pyStrip "- Built X\n* Improved Y\n\nLed Z")
      = ["Built X", "Improved Y", "Led Z"] ∧
    ∀ (endpoint : Endpoint) (item : Item) (item_type : String) (response : ApiSuccess),
      item.description_bullets ≠ [] →
      (∀ req n, endpoint req n = ApiOutcome.ok response) →
      (summarize_item endpoint item item_type).description_bullets
        = backend_bullet_lines (pyStrip response.content) := by
  constructor
  · decide
  · intro endpoint item item_type response hb hep
    have hr : List.range 3 = [0, 1, 2] := rfl
    simp [summarize_item, summarize_itemT, hb, call_deepseek_api_async, hr,
      backendAttemptLoop, hep]

/-- Witness for C4: the successful endpoint rewrites the bullet list of the
concrete work item to the parsed example lines. -/
theorem C4_bullet_parsing_witness :
    wWorkItem.description_bullets ≠ [] ∧
    (summarize_item wOkEndpoint wWorkItem "work experience").description_bullets
      = backend_bullet_lines (pyStrip wOkResponse.content) :=
  ⟨by decide,
   C4_bullet_parsing.2 wOkEndpoint wWorkItem "work experience" wOkResponse
     (by decide) (fun _ _ => rfl)⟩

/-! ### Claim C6 (empty bullet list) -/

/-- Claim C6, counterexample: on an item with an empty bullet list the
backend `summarize_item` returns the bare item; the returned dictionary has
no success entry at all, so in particular success is not marked true. -/
theorem C6_counterexample :
    wEmptyItem.description_bullets = [] ∧
    (summarize_item wFailEndpoint wEmptyItem "project").success ≠ some true := by
  exact ⟨rfl, by decide⟩

/-- Claim C6 (amended): on an item whose bullet list is empty,
`summarize_item` returns at once with the item unchanged (the original
empty bullet list included) and issues zero calls to the external endpoint;
the backend writes no success flag to the returned item. -/
theorem C6_empty_bullets (endpoint : Endpoint) (item : Item) (item_type : String)
    (h : item.description_bullets = []) :
    summarize_itemT endpoint item item_type = (item, []) := by
  simp [summarize_itemT, h]

/-- Witness for C6: the concrete empty item is returned unchanged with an
empty attempt trace. -/
theorem C6_empty_bullets_witness :
    wEmptyItem.description_bullets = [] ∧
    summarize_itemT wFailEndpoint wEmptyItem "project" = (wEmptyItem, []) :=
  ⟨rfl, C6_empty_bullets wFailEndpoint wEmptyItem "project" rfl⟩

/-! ### Claim C7 (precondition failures) -/

/-- Claim C7: when the embedding model is not loaded or the summarizer
client is not configured, the request handler rejects the request with a
service-unavailable error; the result does not depend on the stored resume
document, the score oracle or the endpoint oracle, so no step of the
pipeline (fetch included) is attempted. -/
theorem C7_preconditions (st ds valid : Bool) (resume_data : Option ResumeDoc)
    (uid : String) (scoreFn : ℕ → ℚ) (endpointFor : ℕ → Endpoint)
    (h : st = false ∨ ds = false) :
    ∃ d, rank_and_summarize_resume_items st ds valid resume_data uid scoreFn endpointFor
      = Except.error (HttpError.serviceUnavailable d) := by
  rcases h with h | h
  · subst h; exact ⟨_, rfl⟩
  · subst h
    cases st
    · exact ⟨_, rfl⟩
    · exact ⟨_, rfl⟩

/-- Witness for C7: with the embedding model flagged unloaded the concrete
request is rejected as service unavailable. -/
theorem C7_preconditions_witness :
    (false = false ∨ true = false) ∧
    ∃ d, rank_and_summarize_resume_items false true true none "u" wScoreFn wEndpointFor
      = Except.error (HttpError.serviceUnavailable d) :=
  ⟨Or.inl rfl,
   C7_preconditions false true true none "u" wScoreFn wEndpointFor (Or.inl rfl)⟩

/-! ### Claim C9 (empty resume) -/

/-- Claim C9: a request over a resume with no work experiences and no
projects returns the empty response as a terminal success, for every score
oracle and endpoint oracle — so no embedding, ranking, selection or
summarization work is performed. -/
theorem C9_empty_resume (uid : String) (scoreFn : ℕ → ℚ) (endpointFor : ℕ → Endpoint) :
    rank_and_summarize_resume_items true true true
        (some { user_id := uid, work_experience := [], projects := [] }) uid scoreFn endpointFor
      = Except.ok { top_work_experiences := [], top_projects := [] } := by
  simp [rank_and_summarize_resume_items, rank_core, items_to_rank]

/-! ### Claim C10 (backend and standalone summarizers agree) -/

/-- Claim C10: on identical inputs the backend async summarizer and the
standalone batch summarizer build character-identical system and user
messages, send identical requests (same model, temperature 0.7, output cap
512 tokens, no streaming), and parse a returned text into the same ordered
bullet list. -/
theorem C10_refinement :
    (∀ item_type title bullets,
      backend_messages item_type title bullets = standalone_messages item_type title bullets) ∧
    (∀ model messages, backend_request model messages = standalone_request model messages) ∧
    (∀ model messages, (backend_request model messages).temperature = 7 / 10 ∧
      (backend_request model messages).max_tokens = 512) ∧
    (∀ raw, backend_bullet_lines raw = standalone_bullet_lines raw) :=
  ⟨fun _ _ _ => rfl, fun _ _ => rfl, fun _ _ => ⟨rfl, rfl⟩, fun _ => rfl⟩

/-! ### Claim C5 (ranking order) -/

/-- Claim C5: the ranking step returns a permutation of the (score
annotated) input items — no item added or dropped — sorted in descending
order of score; ties are broken by the original input order: any two
entries with equal scores that appear as a pair (in input order) in the
annotated list still appear as a pair in the same order in the ranked
list. -/
theorem C5_ranking (scoreFn : ℕ → ℚ) (items : List (String × Item × String))
    (_hne : items ≠ []) :
    (rankStep scoreFn items).Perm (annotateStep scoreFn items) ∧
    (rankStep scoreFn items).Pairwise scoreDescRel ∧
    ∀ a b : ℚ × String × Item, List.Sublist [a, b] (annotateStep scoreFn items) → a.1 = b.1 →
      List.Sublist [a, b] (rankStep scoreFn items) := by
  refine ⟨List.perm_insertionSort scoreDescRel _, List.sorted_insertionSort scoreDescRel _, ?_⟩
  intro a b hab heq
  exact List.pair_sublist_insertionSort (le_of_eq heq.symm) hab

/-- A two-item candidate list of one work experience and one project. -/
def wRankItems : List (String × Item × String) := items_to_rank [wWorkItem] [wProjItem]

/-- A score oracle that ties every item at score 0. -/
def wZeroScore : ℕ → ℚ := fun _ => 0

/-- The first annotated tuple of `wRankItems` under the all-ties oracle. -/
def wTieA : ℚ × String × Item := (0, "Work Ex", { wWorkItem with score := some 0 })

/-- The second annotated tuple of `wRankItems` under the all-ties oracle. -/
def wTieB : ℚ × String × Item := (0, "Project", { wProjItem with score := some 0 })

/-- Witness for C5: on the concrete two-item candidate list with tied
scores, the ranked list is a permutation of the annotated input, sorted
descending, and the tied pair keeps its input order. -/
theorem C5_ranking_witness :
    wRankItems ≠ [] ∧
    (rankStep wZeroScore wRankItems).Perm (annotateStep wZeroScore wRankItems) ∧
    (rankStep wZeroScore wRankItems).Pairwise scoreDescRel ∧
    List.Sublist [wTieA, wTieB] (rankStep wZeroScore wRankItems) := by
  obtain ⟨h1, h2, h3⟩ := C5_ranking wZeroScore wRankItems (by decide)
  refine ⟨by decide, h1, h2, h3 wTieA wTieB ?_ rfl⟩
  exact (List.Sublist.refl [wTieA, wTieB])

/-! ### Claim C3 (top-K selection) -/

/-- The work-experience entries of a ranked list, in ranked order. -/
def workOf (ranked : List (ℚ × String × Item)) : List (ℚ × String × Item) :=
  ranked.filter (fun t => decide (t.2.1 = "Work Ex"))

/-- The project entries of a ranked list, in ranked order. -/
def projOf (ranked : List (ℚ × String × Item)) : List (ℚ × String × Item) :=
  ranked.filter (fun t => decide (t.2.1 = "Project"))

/-- The filtering loop takes, per category, the first entries of the ranked
list up to the remaining capacity (2 for work experiences, 3 for
projects). -/
lemma filterLoop_eq (l : List (ℚ × String × Item)) : ∀ tw tp : List Item,
    filterLoop l tw tp =
      (tw ++ (((workOf l).map (fun t => t.2.2)).take (2 - tw.length)),
       tp ++ (((projOf l).map (fun t => t.2.2)).take (3 - tp.length))) := by
  induction l with
  | nil => intro tw tp; simp [filterLoop, workOf, projOf]
  | cons hd rest ih =>
    intro tw tp
    obtain ⟨s, cat, it⟩ := hd
    rw [filterLoop]
    by_cases hw : cat = "Work Ex"
    · subst hw
      have hnp : ¬ ("Work Ex" = "Project") := by decide
      by_cases hlen : tw.length < 2
      · rw [if_pos ⟨rfl, hlen⟩, ih (tw ++ [it]) tp]
        have h2 : 2 - tw.length = (2 - (tw ++ [it]).length) + 1 := by
          simp only [List.length_append, List.length_cons, List.length_nil]
          omega
        refine Prod.ext ?_ ?_
        · simp only [workOf, List.filter_cons, decide_eq_true_eq, if_pos rfl]
          simp only [List.map_cons, h2, List.take_succ_cons, List.append_assoc,
            List.singleton_append]
          simp
        · simp [projOf, List.filter_cons, hnp]
      · have hng : ¬ ("Work Ex" = "Work Ex" ∧ tw.length < 2) := fun h => hlen h.2
        have hng2 : ¬ ("Work Ex" = "Project" ∧ tp.length < 3) := fun h => hnp h.1
        rw [if_neg hng, if_neg hng2, ih tw tp]
        have h0 : 2 - tw.length = 0 := by omega
        refine Prod.ext ?_ ?_
        · simp [workOf, List.filter_cons, h0]
        · simp [projOf, List.filter_cons, hnp]
    · by_cases hp : cat = "Project"
      · subst hp
        have hnw : ¬ ("Project" = "Work Ex") := by decide
        have hng : ¬ ("Project" = "Work Ex" ∧ tw.length < 2) := fun h => hnw h.1
        by_cases hlen : tp.length < 3
        · rw [if_neg hng, if_pos ⟨rfl, hlen⟩, ih tw (tp ++ [it])]
          have h3 : 3 - tp.length = (3 - (tp ++ [it]).length) + 1 := by
            simp only [List.length_append, List.length_cons, List.length_nil]
            omega
          refine Prod.ext ?_ ?_
          · simp [workOf, List.filter_cons, hnw]
          · simp only [projOf, List.filter_cons, decide_eq_true_eq, if_pos rfl]
            simp only [List.map_cons, h3, List.take_succ_cons, List.append_assoc,
              List.singleton_append]
            simp
        · have hng2 : ¬ ("Project" = "Project" ∧ tp.length < 3) := fun h => hlen h.2
          rw [if_neg hng, if_neg hng2, ih tw tp]
          have h0 : 3 - tp.length = 0 := by omega
          refine Prod.ext ?_ ?_
          · simp [workOf, List.filter_cons, hnw]
          · simp [projOf, List.filter_cons, h0]
      · have hng : ¬ (cat = "Work Ex" ∧ tw.length < 2) := fun h => hw h.1
        have hng2 : ¬ (cat = "Project" ∧ tp.length < 3) := fun h => hp h.1
        rw [if_neg hng, if_neg hng2, ih tw tp]
        refine Prod.ext ?_ ?_
        · simp [workOf, List.filter_cons, hw]
        · simp [projOf, List.filter_cons, hp]

/-- Claim C3: on a ranked (descending) input list the selection step keeps
at most 2 work experiences and at most 3 projects; the kept items are
exactly the first entries of their category in ranked order (so the
relative score order within each category is preserved); when a category
has fewer entries than its cap all of them are kept, without padding or
error; and every kept entry scores at least as high as every entry of its
category that was cut. -/
theorem C3_topk (ranked : List (ℚ × String × Item))
    (hsorted : ranked.Pairwise scoreDescRel) :
    (selectStep ranked).1.length ≤ 2 ∧
    (selectStep ranked).2.length ≤ 3 ∧
    (selectStep ranked).1 = ((workOf ranked).take 2).map (fun t => t.2.2) ∧
    (selectStep ranked).2 = ((projOf ranked).take 3).map (fun t => t.2.2) ∧
    ((workOf ranked).length ≤ 2 →
      (selectStep ranked).1 = (workOf ranked).map (fun t => t.2.2)) ∧
    ((projOf ranked).length ≤ 3 →
      (selectStep ranked).2 = (projOf ranked).map (fun t => t.2.2)) ∧
    (∀ a ∈ (workOf ranked).take 2, ∀ b ∈ (workOf ranked).drop 2, b.1 ≤ a.1) ∧
    (∀ a ∈ (projOf ranked).take 3, ∀ b ∈ (projOf ranked).drop 3, b.1 ≤ a.1) := by
  have h := filterLoop_eq ranked [] []
  have h1 : (selectStep ranked).1 = ((workOf ranked).take 2).map (fun t => t.2.2) := by
    simp [selectStep, h, List.map_take]
  have h2 : (selectStep ranked).2 = ((projOf ranked).take 3).map (fun t => t.2.2) := by
    simp [selectStep, h, List.map_take]
  have hwsort : (workOf ranked).Pairwise scoreDescRel := hsorted.filter _
  have hpsort : (projOf ranked).Pairwise scoreDescRel := hsorted.filter _
  refine ⟨?_, ?_, h1, h2, ?_, ?_, ?_, ?_⟩
  · rw [h1]; simp [List.length_take]
  · rw [h2]; simp [List.length_take]
  · intro hle; rw [h1, List.take_of_length_le hle]
  · intro hle; rw [h2, List.take_of_length_le hle]
  · intro a ha b hb
    exact List.Sorted.rel_of_mem_take_of_mem_drop hwsort ha hb
  · intro a ha b hb
    exact List.Sorted.rel_of_mem_take_of_mem_drop hpsort ha hb

/-- A concrete ranked list: five work experiences and one project, sorted
descending by score. -/
def wRankedSix : List (ℚ × String × Item) :=
  [(5, "Work Ex", wWorkItem), (4, "Work Ex", wWorkItem), (3, "Work Ex", wWorkItem),
   (2, "Project", wProjItem), (1, "Work Ex", wWorkItem), (0, "Work Ex", wWorkItem)]

/-- Witness for C3: on the concrete six-entry ranked list (five work
experiences with cap 2, one project with cap 3) the selection keeps exactly
the 2 highest-scoring work experiences and the single project. -/
theorem C3_topk_witness :
    wRankedSix.Pairwise scoreDescRel ∧
    (selectStep wRankedSix).1.length ≤ 2 ∧
    (selectStep wRankedSix).1 = ((workOf wRankedSix).take 2).map (fun t => t.2.2) ∧
    (selectStep wRankedSix).2 = (projOf wRankedSix).map (fun t => t.2.2) := by
  have hs : wRankedSix.Pairwise scoreDescRel := by
    unfold wRankedSix scoreDescRel; decide
  obtain ⟨g1, g2, g3, g4, g5, g6, g7, g8⟩ := C3_topk wRankedSix hs
  exact ⟨hs, g1, g3, g6 (by decide)⟩

/-! ### Orchestrator decomposition used by claims C1 and C8

Named projections of the intermediate values of `rank_core`; each is
definitionally the corresponding let-bound value of the pipeline. -/

/-- The selected work experiences of one run. -/
def topWorkItems (scoreFn : ℕ → ℚ) (ws ps : List Item) : List Item :=
  (selectStep (rankStep scoreFn (items_to_rank ws ps))).1

/-- The selected projects of one run. -/
def topProjectItems (scoreFn : ℕ → ℚ) (ws ps : List Item) : List Item :=
  (selectStep (rankStep scoreFn (items_to_rank ws ps))).2

/-- The selected work-experience identifiers of one run. -/
def workIdsOf (scoreFn : ℕ → ℚ) (ws ps : List Item) : List String :=
  (topWorkItems scoreFn ws ps).filterMap Item.work_ex_id

/-- The selected project identifiers of one run. -/
def projIdsOf (scoreFn : ℕ → ℚ) (ws ps : List Item) : List String :=
  (topProjectItems scoreFn ws ps).filterMap Item.project_id

/-- The per-task results of the summarization fan-out, in task order. -/
def summarizedResults (scoreFn : ℕ → ℚ) (endpointFor : ℕ → Endpoint)
    (ws ps : List Item) : List Item :=
  (pipelineTasks scoreFn ws ps).enum.map
    (fun p => summarize_item (endpointFor p.1) p.2.1 p.2.2)

/-- `rank_core` written through the named projections. -/
lemma rank_core_eq (scoreFn : ℕ → ℚ) (endpointFor : ℕ → Endpoint) (ws ps : List Item) :
    rank_core scoreFn endpointFor ws ps =
      if (items_to_rank ws ps).isEmpty then
        Except.ok { top_work_experiences := [], top_projects := [] }
      else
        match reassembleLoop (workIdsOf scoreFn ws ps) (projIdsOf scoreFn ws ps)
            (summarizedResults scoreFn endpointFor ws ps) [] [] with
        | Except.error e => Except.error e
        | Except.ok (fw, fp) =>
            Except.ok { top_work_experiences := List.insertionSort itemDescRel fw,
                        top_projects := List.insertionSort itemDescRel fp } := rfl

/-- Summarization never touches any field other than the bullet list: the
identifiers, the titles and the ranking score of the returned item are
those of the input item, and no success flag is written. -/
lemma summarize_itemT_shape (endpoint : Endpoint) (it : Item) (ty : String) :
    ∃ bl, (summarize_itemT endpoint it ty).1 = { it with description_bullets := bl } := by
  simp only [summarize_itemT]
  by_cases hb : it.description_bullets = []
  · rw [if_pos hb]
    exact ⟨it.description_bullets, rfl⟩
  · rw [if_neg hb]
    cases h : (call_deepseek_api_async endpoint
        (backend_messages ty (summarize_title it ty) it.description_bullets)
        "deepseek-chat").result with
    | ok r =>
        refine ⟨backend_bullet_lines (pyStrip r.content), ?_⟩
        simp only [h]
    | error e =>
        refine ⟨it.description_bullets, ?_⟩
        simp only [h]

lemma summarize_item_fields (endpoint : Endpoint) (it : Item) (ty : String) :
    (summarize_item endpoint it ty).work_ex_id = it.work_ex_id ∧
    (summarize_item endpoint it ty).project_id = it.project_id ∧
    (summarize_item endpoint it ty).job_title = it.job_title ∧
    (summarize_item endpoint it ty).company_name = it.company_name ∧
    (summarize_item endpoint it ty).project_name = it.project_name ∧
    (summarize_item endpoint it ty).score = it.score ∧
    (summarize_item endpoint it ty).success = it.success := by
  obtain ⟨bl, hbl⟩ := summarize_itemT_shape endpoint it ty
  rw [summarize_item, hbl]
  exact ⟨rfl, rfl, rfl, rfl, rfl, rfl, rfl⟩

/-- When every attempt of the client fails, the traced loop returns the
error of the final attempt. -/
lemma backendAttemptLoop_all_err (endpoint : Endpoint) (req : ApiRequest)
    (h : ∀ n, ∃ e, endpoint req n = ApiOutcome.err e) :
    ∃ e, (backendAttemptLoop endpoint req 3 (List.range 3)).result = Except.error e := by
  obtain ⟨e0, h0⟩ := h 0
  obtain ⟨e1, h1⟩ := h 1
  obtain ⟨e2, h2⟩ := h 2
  refine ⟨e2, ?_⟩
  have hr : List.range 3 = [0, 1, 2] := rfl
  rw [hr]
  simp [backendAttemptLoop, h0, h1, h2]

/-- When every attempt against the endpoint fails, `summarize_item` returns
the item unchanged. -/
lemma summarize_item_of_fail (endpoint : Endpoint) (it : Item) (ty : String)
    (h : ∀ req n, ∃ e, endpoint req n = ApiOutcome.err e) :
    summarize_item endpoint it ty = it := by
  unfold summarize_item
  simp only [summarize_itemT]
  by_cases hb : it.description_bullets = []
  · rw [if_pos hb]
  · rw [if_neg hb]
    obtain ⟨e, he⟩ := backendAttemptLoop_all_err endpoint
      (backend_request "deepseek-chat"
        (backend_messages ty (summarize_title it ty) it.description_bullets))
      (fun n => h _ n)
    have hc : (call_deepseek_api_async endpoint
        (backend_messages ty (summarize_title it ty) it.description_bullets)
        "deepseek-chat").result = Except.error e := he
    simp only [hc]

/-- The payload of an enumerated entry is a member of the underlying
list. -/
lemma snd_mem_of_mem_enum {α : Type _} {l : List α} {p : ℕ × α} (h : p ∈ l.enum) :
    p.2 ∈ l := by
  rw [List.mem_enum_iff_getElem?] at h
  exact List.getElem?_mem h

/-- Every entry of `items_to_rank` is a tagged work experience or a tagged
project. -/
lemma mem_items_to_rank {ws ps : List Item} {x : String × Item × String}
    (h : x ∈ items_to_rank ws ps) :
    (∃ w ∈ ws, x = ("Work Ex", w, String.intercalate ". " w.description_bullets)) ∨
    (∃ p ∈ ps, x = ("Project", p, String.intercalate ". " p.description_bullets)) := by
  rw [items_to_rank, List.mem_append] at h
  rcases h with h | h <;> rw [List.mem_map] at h
  · obtain ⟨w, hw, hx⟩ := h
    exact Or.inl ⟨w, hw, hx.symm⟩
  · obtain ⟨p, hp, hx⟩ := h
    exact Or.inr ⟨p, hp, hx.symm⟩

/-- Every entry of the ranked list is an annotated input entry. -/
lemma mem_rankStep {scoreFn : ℕ → ℚ} {items : List (String × Item × String)}
    {t : ℚ × String × Item} (h : t ∈ rankStep scoreFn items) :
    ∃ i x, (i, x) ∈ items.enum ∧
      t = (scoreFn i, x.1, { x.2.1 with score := some (scoreFn i) }) := by
  rw [rankStep, List.mem_insertionSort, annotateStep, List.mem_map] at h
  obtain ⟨p, hp, ht⟩ := h
  exact ⟨p.1, p.2, hp, ht.symm⟩

/-- Every selected work experience is a stored work experience with its
ranking score assigned. -/
lemma mem_topWorkItems {scoreFn : ℕ → ℚ} {ws ps : List Item} {it : Item}
    (h : it ∈ topWorkItems scoreFn ws ps) :
    ∃ i w, w ∈ ws ∧ it = { w with score := some (scoreFn i) } := by
  rw [topWorkItems, selectStep, filterLoop_eq] at h
  simp only [List.nil_append, List.length_nil, Nat.sub_zero] at h
  have h1 := List.mem_of_mem_take h
  rw [List.mem_map] at h1
  obtain ⟨t, ht, hit⟩ := h1
  rw [workOf, List.mem_filter] at ht
  obtain ⟨htr, hcat⟩ := ht
  have hcat' : t.2.1 = "Work Ex" := of_decide_eq_true hcat
  obtain ⟨i, x, hx, htx⟩ := mem_rankStep htr
  have hxm := snd_mem_of_mem_enum hx
  rcases mem_items_to_rank hxm with ⟨w, hw, hxe⟩ | ⟨p, hp, hxe⟩
  · have hx2 : x = ("Work Ex", w, String.intercalate ". " w.description_bullets) := hxe
    refine ⟨i, w, hw, ?_⟩
    rw [← hit, htx, hx2]
  · exfalso
    have hx2 : x = ("Project", p, String.intercalate ". " p.description_bullets) := hxe
    rw [htx, hx2] at hcat'
    simp at hcat'

/-- Every selected project is a stored project with its ranking score
assigned. -/
lemma mem_topProjectItems {scoreFn : ℕ → ℚ} {ws ps : List Item} {it : Item}
    (h : it ∈ topProjectItems scoreFn ws ps) :
    ∃ i p, p ∈ ps ∧ it = { p with score := some (scoreFn i) } := by
  rw [topProjectItems, selectStep, filterLoop_eq] at h
  simp only [List.nil_append, List.length_nil, Nat.sub_zero] at h
  have h1 := List.mem_of_mem_take h
  rw [List.mem_map] at h1
  obtain ⟨t, ht, hit⟩ := h1
  rw [projOf, List.mem_filter] at ht
  obtain ⟨htr, hcat⟩ := ht
  have hcat' : t.2.1 = "Project" := of_decide_eq_true hcat
  obtain ⟨i, x, hx, htx⟩ := mem_rankStep htr
  have hxm := snd_mem_of_mem_enum hx
  rcases mem_items_to_rank hxm with ⟨w, hw, hxe⟩ | ⟨p, hp, hxe⟩
  · exfalso
    have hx2 : x = ("Work Ex", w, String.intercalate ". " w.description_bullets) := hxe
    rw [htx, hx2] at hcat'
    simp at hcat'
  · have hx2 : x = ("Project", p, String.intercalate ". " p.description_bullets) := hxe
    refine ⟨i, p, hp, ?_⟩
    rw [← hit, htx, hx2]

/-- Well-formedness of stored work-experience documents: the fields the
pydantic model requires are present, and a work-experience dictionary
carries no project identifier. -/
def WorkSourceWf (ws : List Item) : Prop :=
  ∀ w ∈ ws, w.work_ex_id.isSome ∧ w.job_title.isSome ∧ w.company_name.isSome ∧
    w.project_id = none

/-- Well-formedness of stored project documents: the required fields are
present, and a project dictionary carries no work-experience identifier. -/
def ProjSourceWf (ps : List Item) : Prop :=
  ∀ p ∈ ps, p.project_id.isSome ∧ p.project_name.isSome ∧ p.work_ex_id = none

instance (ws : List Item) : Decidable (WorkSourceWf ws) := by
  unfold WorkSourceWf; infer_instance

instance (ps : List Item) : Decidable (ProjSourceWf ps) := by
  unfold ProjSourceWf; infer_instance

/-- Setting the score of an item changes no other field. -/
lemma setScore_fields (w : Item) (s : ℚ) :
    ({ w with score := some s } : Item).work_ex_id = w.work_ex_id ∧
    ({ w with score := some s } : Item).job_title = w.job_title ∧
    ({ w with score := some s } : Item).company_name = w.company_name ∧
    ({ w with score := some s } : Item).project_id = w.project_id ∧
    ({ w with score := some s } : Item).project_name = w.project_name ∧
    ({ w with score := some s } : Item).description_bullets = w.description_bullets :=
  ⟨rfl, rfl, rfl, rfl, rfl, rfl⟩

/-- The selected work experiences of a well-formed run validate: identifier,
job title, company name and score are all present, and the project
identifier is absent. -/
lemma topWorkItems_wf {scoreFn : ℕ → ℚ} {ws ps : List Item} (hws : WorkSourceWf ws) :
    ∀ it ∈ topWorkItems scoreFn ws ps,
      it.work_ex_id.isSome ∧ it.job_title.isSome ∧ it.company_name.isSome ∧
      it.project_id = none ∧ it.score.isSome := by
  intro it h
  obtain ⟨i, w, hw, rfl⟩ := mem_topWorkItems h
  obtain ⟨h1, h2, h3, h4⟩ := hws w hw
  exact ⟨h1, h2, h3, h4, rfl⟩

/-- The selected projects of a well-formed run validate: identifier, name
and score are present, and the work-experience identifier is absent. -/
lemma topProjectItems_wf {scoreFn : ℕ → ℚ} {ws ps : List Item} (hps : ProjSourceWf ps) :
    ∀ it ∈ topProjectItems scoreFn ws ps,
      it.project_id.isSome ∧ it.project_name.isSome ∧ it.work_ex_id = none ∧
      it.score.isSome := by
  intro it h
  obtain ⟨i, p, hp, rfl⟩ := mem_topProjectItems h
  obtain ⟨h1, h2, h3⟩ := hps p hp
  exact ⟨h1, h2, h3, rfl⟩

/-- Every task of the fan-out is a selected work experience tagged
"work experience" or a selected project tagged "project". -/
lemma mem_pipelineTasks {scoreFn : ℕ → ℚ} {ws ps : List Item} {t : Item × String}
    (h : t ∈ pipelineTasks scoreFn ws ps) :
    (t.2 = "work experience" ∧ t.1 ∈ topWorkItems scoreFn ws ps) ∨
    (t.2 = "project" ∧ t.1 ∈ topProjectItems scoreFn ws ps) := by
  rw [pipelineTasks, List.mem_append] at h
  rcases h with h | h <;> rw [List.mem_map] at h
  · obtain ⟨it, hit, rfl⟩ := h
    exact Or.inl ⟨rfl, hit⟩
  · obtain ⟨it, hit, rfl⟩ := h
    exact Or.inr ⟨rfl, hit⟩

/-- Every result of the fan-out join is the summarization of a selected
item under some task endpoint. -/
lemma mem_summarizedResults {scoreFn : ℕ → ℚ} {endpointFor : ℕ → Endpoint}
    {ws ps : List Item} {v : Item}
    (h : v ∈ summarizedResults scoreFn endpointFor ws ps) :
    ∃ n, (∃ it ∈ topWorkItems scoreFn ws ps,
            v = summarize_item (endpointFor n) it "work experience") ∨
         (∃ it ∈ topProjectItems scoreFn ws ps,
            v = summarize_item (endpointFor n) it "project") := by
  rw [summarizedResults, List.mem_map] at h
  obtain ⟨p, hp, hv⟩ := h
  have hmem := snd_mem_of_mem_enum hp
  rcases mem_pipelineTasks hmem with ⟨hty, hit⟩ | ⟨hty, hit⟩
  · exact ⟨p.1, Or.inl ⟨p.2.1, hit, by rw [← hv, hty]⟩⟩
  · exact ⟨p.1, Or.inr ⟨p.2.1, hit, by rw [← hv, hty]⟩⟩

/-- Case analysis on a fan-out result of a well-formed run: it matches the
selected work-experience identifiers and validates as a ranked work
experience, or it fails the work-experience match, matches the selected
project identifiers and validates as a ranked project. -/
lemma summarized_cases {scoreFn : ℕ → ℚ} {endpointFor : ℕ → Endpoint}
    {ws ps : List Item} (hws : WorkSourceWf ws) (hps : ProjSourceWf ps) :
    ∀ v ∈ summarizedResults scoreFn endpointFor ws ps,
      (workMatch (workIdsOf scoreFn ws ps) v ∧ validateRankedWorkExperience v = some v) ∨
      (¬ workMatch (workIdsOf scoreFn ws ps) v ∧ projMatch (projIdsOf scoreFn ws ps) v ∧
        validateRankedProject v = some v) := by
  intro v hv
  obtain ⟨n, hcase⟩ := mem_summarizedResults hv
  rcases hcase with ⟨it, hit, rfl⟩ | ⟨it, hit, rfl⟩
  · left
    obtain ⟨f1, f2, f3, f4, f5, f6, f7⟩ :=
      summarize_item_fields (endpointFor n) it "work experience"
    obtain ⟨w1, w2, w3, w4, w5⟩ := topWorkItems_wf hws it hit
    obtain ⟨wid, hwid⟩ := Option.isSome_iff_exists.mp w1
    constructor
    · rw [workMatch, f1, hwid]
      simp only [Option.elim]
      rw [workIdsOf]
      exact List.mem_filterMap.mpr ⟨it, hit, hwid⟩
    · rw [validateRankedWorkExperience, if_pos]
      rw [f1, f3, f4, f6]
      exact ⟨w1, w2, w3, w5⟩
  · right
    obtain ⟨f1, f2, f3, f4, f5, f6, f7⟩ :=
      summarize_item_fields (endpointFor n) it "project"
    obtain ⟨p1, p2, p3, p4⟩ := topProjectItems_wf hps it hit
    obtain ⟨pid, hpid⟩ := Option.isSome_iff_exists.mp p1
    refine ⟨?_, ?_, ?_⟩
    · rw [workMatch, f1, p3]
      simp [Option.elim]
    · rw [projMatch, f2, hpid]
      simp only [Option.elim]
      rw [projIdsOf]
      exact List.mem_filterMap.mpr ⟨it, hit, hpid⟩
    · rw [validateRankedProject, if_pos]
      rw [f2, f5, f6]
      exact ⟨p1, p2, p4⟩

/-- The reassembly loop of a batch in which every work-matching result
validates as a work experience and every remaining project-matching result
validates as a project: it succeeds, routing results by their identifiers
only — the work list receives exactly the results whose `work_ex_id` is a
selected work identifier, the project list exactly the remaining results
whose `project_id` is a selected project identifier. -/
lemma reassembleLoop_eq (wIds pIds : List String) :
    ∀ (results fw fp : List Item),
    (∀ it ∈ results, workMatch wIds it → validateRankedWorkExperience it = some it) →
    (∀ it ∈ results, ¬ workMatch wIds it → projMatch pIds it →
      validateRankedProject it = some it) →
    reassembleLoop wIds pIds results fw fp =
      Except.ok (fw ++ results.filter (fun it => decide (workMatch wIds it)),
                 fp ++ results.filter
                   (fun it => decide (¬ workMatch wIds it ∧ projMatch pIds it)))
  | [], fw, fp, _, _ => by simp [reassembleLoop]
  | item :: rest, fw, fp, hvw, hvp => by
    have hvw' := fun it h => hvw it (List.mem_cons_of_mem _ h)
    have hvp' := fun it h => hvp it (List.mem_cons_of_mem _ h)
    rw [reassembleLoop]
    by_cases hw : workMatch wIds item
    · rw [if_pos hw, hvw item (List.mem_cons_self _ _) hw]
      dsimp only
      rw [reassembleLoop_eq wIds pIds rest (fw ++ [item]) fp hvw' hvp']
      rw [List.filter_cons_of_pos (by simpa using hw),
          List.filter_cons_of_neg (by simp [hw])]
      simp
    · rw [if_neg hw]
      by_cases hp : projMatch pIds item
      · rw [if_pos hp, hvp item (List.mem_cons_self _ _) hw hp]
        dsimp only
        rw [reassembleLoop_eq wIds pIds rest fw (fp ++ [item]) hvw' hvp']
        rw [List.filter_cons_of_neg (by simpa using hw),
            List.filter_cons_of_pos (by simp [hw, hp])]
        simp
      · rw [if_neg hp]
        rw [reassembleLoop_eq wIds pIds rest fw fp hvw' hvp']
        rw [List.filter_cons_of_neg (by simpa using hw),
            List.filter_cons_of_neg (by simp [hw, hp])]

/-- The fan-out results routed to the final work-experience list: those
whose work identifier is among the selected work identifiers. -/
def finalWorkPool (scoreFn : ℕ → ℚ) (endpointFor : ℕ → Endpoint) (ws ps : List Item) :
    List Item :=
  (summarizedResults scoreFn endpointFor ws ps).filter
    (fun v => decide (workMatch (workIdsOf scoreFn ws ps) v))

/-- The fan-out results routed to the final project list: those that fail
the work-experience match and whose project identifier is among the
selected project identifiers. -/
def finalProjPool (scoreFn : ℕ → ℚ) (endpointFor : ℕ → Endpoint) (ws ps : List Item) :
    List Item :=
  (summarizedResults scoreFn endpointFor ws ps).filter
    (fun v => decide (¬ workMatch (workIdsOf scoreFn ws ps) v ∧
      projMatch (projIdsOf scoreFn ws ps) v))

/-- The full pipeline of a well-formed run succeeds: reassembly routes the
fan-out results by identifier and the response holds the two final lists,
each re-sorted descending by score. -/
lemma rank_core_run (scoreFn : ℕ → ℚ) (endpointFor : ℕ → Endpoint) (ws ps : List Item)
    (hws : WorkSourceWf ws) (hps : ProjSourceWf ps) :
    rank_core scoreFn endpointFor ws ps =
      Except.ok ⟨List.insertionSort itemDescRel (finalWorkPool scoreFn endpointFor ws ps),
                 List.insertionSort itemDescRel (finalProjPool scoreFn endpointFor ws ps)⟩ := by
  rw [rank_core_eq]
  by_cases he : (items_to_rank ws ps).isEmpty
  · rw [if_pos he]
    have h0 : items_to_rank ws ps = [] := by simpa using he
    have hs : summarizedResults scoreFn endpointFor ws ps = [] := by
      simp [summarizedResults, pipelineTasks, selectStep, rankStep, annotateStep, h0,
        filterLoop, List.insertionSort]
    simp [finalWorkPool, finalProjPool, hs, List.insertionSort]
  · rw [if_neg he]
    have hcases := @summarized_cases scoreFn endpointFor ws ps hws hps
    have hvw : ∀ it ∈ summarizedResults scoreFn endpointFor ws ps,
        workMatch (workIdsOf scoreFn ws ps) it →
        validateRankedWorkExperience it = some it := by
      intro it h hw
      rcases hcases it h with ⟨_, hv⟩ | ⟨hnw, _, _⟩
      · exact hv
      · exact absurd hw hnw
    have hvp : ∀ it ∈ summarizedResults scoreFn endpointFor ws ps,
        ¬ workMatch (workIdsOf scoreFn ws ps) it →
        projMatch (projIdsOf scoreFn ws ps) it →
        validateRankedProject it = some it := by
      intro it h hnw hp
      rcases hcases it h with ⟨hw, _⟩ | ⟨_, _, hv⟩
      · exact absurd hw hnw
      · exact hv
    rw [reassembleLoop_eq (workIdsOf scoreFn ws ps) (projIdsOf scoreFn ws ps)
      (summarizedResults scoreFn endpointFor ws ps) [] [] hvw hvp]
    simp [finalWorkPool, finalProjPool]

/-- The summarization of task `j` is one of the fan-out results. -/
lemma summarize_task_mem (scoreFn : ℕ → ℚ) (endpointFor : ℕ → Endpoint) (ws ps : List Item)
    (j : ℕ) (hj : j < (pipelineTasks scoreFn ws ps).length) :
    summarize_item (endpointFor j) ((pipelineTasks scoreFn ws ps).get ⟨j, hj⟩).1
        ((pipelineTasks scoreFn ws ps).get ⟨j, hj⟩).2
      ∈ summarizedResults scoreFn endpointFor ws ps := by
  rw [summarizedResults]
  refine List.mem_map.mpr ⟨(j, (pipelineTasks scoreFn ws ps).get ⟨j, hj⟩), ?_, rfl⟩
  rw [List.mem_enum_iff_getElem?]
  simp [List.get_eq_getElem, List.getElem?_eq_getElem hj]

/-- In a well-formed run, the summarization of every task lands in one of
the two final pools. -/
lemma task_result_mem_pool (scoreFn : ℕ → ℚ) (endpointFor : ℕ → Endpoint)
    (ws ps : List Item) (hws : WorkSourceWf ws) (hps : ProjSourceWf ps)
    (j : ℕ) (hj : j < (pipelineTasks scoreFn ws ps).length) :
    summarize_item (endpointFor j) ((pipelineTasks scoreFn ws ps).get ⟨j, hj⟩).1
        ((pipelineTasks scoreFn ws ps).get ⟨j, hj⟩).2
      ∈ finalWorkPool scoreFn endpointFor ws ps ∨
    summarize_item (endpointFor j) ((pipelineTasks scoreFn ws ps).get ⟨j, hj⟩).1
        ((pipelineTasks scoreFn ws ps).get ⟨j, hj⟩).2
      ∈ finalProjPool scoreFn endpointFor ws ps := by
  have hv := summarize_task_mem scoreFn endpointFor ws ps j hj
  rcases @summarized_cases scoreFn endpointFor ws ps hws hps _ hv with ⟨hw, _⟩ | ⟨hnw, hp, _⟩
  · left
    rw [finalWorkPool]
    exact List.mem_filter.mpr ⟨hv, decide_eq_true hw⟩
  · right
    rw [finalProjPool]
    exact List.mem_filter.mpr ⟨hv, decide_eq_true ⟨hnw, hp⟩⟩

/-! ### Claim C8 (reassembly by identifier and final re-sort) -/

/-- Claim C8: on a well-formed run the pipeline succeeds with a response in
which both final lists are sorted descending by score (the score assigned
during ranking); every summarized task result appears in the final
response; an item is routed to the work-experience list exactly by its
`work_ex_id` being a selected work identifier and to the project list by
its `project_id` being a selected project identifier (never by list
position); and summarization alters neither the identifiers nor the score
of an item. -/
theorem C8_reassembly (scoreFn : ℕ → ℚ) (endpointFor : ℕ → Endpoint) (ws ps : List Item)
    (hws : WorkSourceWf ws) (hps : ProjSourceWf ps) :
    ∃ resp, rank_core scoreFn endpointFor ws ps = Except.ok resp ∧
      resp.top_work_experiences.Pairwise itemDescRel ∧
      resp.top_projects.Pairwise itemDescRel ∧
      (∀ j (hj : j < (pipelineTasks scoreFn ws ps).length),
        summarize_item (endpointFor j) ((pipelineTasks scoreFn ws ps).get ⟨j, hj⟩).1
            ((pipelineTasks scoreFn ws ps).get ⟨j, hj⟩).2 ∈ resp.top_work_experiences ∨
        summarize_item (endpointFor j) ((pipelineTasks scoreFn ws ps).get ⟨j, hj⟩).1
            ((pipelineTasks scoreFn ws ps).get ⟨j, hj⟩).2 ∈ resp.top_projects) ∧
      (∀ v ∈ resp.top_work_experiences, workMatch (workIdsOf scoreFn ws ps) v) ∧
      (∀ v ∈ resp.top_projects, ¬ workMatch (workIdsOf scoreFn ws ps) v ∧
        projMatch (projIdsOf scoreFn ws ps) v) ∧
      (∀ (endpoint : Endpoint) (it : Item) (ty : String),
        (summarize_item endpoint it ty).work_ex_id = it.work_ex_id ∧
        (summarize_item endpoint it ty).project_id = it.project_id ∧
        (summarize_item endpoint it ty).score = it.score) := by
  refine ⟨_, rank_core_run scoreFn endpointFor ws ps hws hps, ?_, ?_, ?_, ?_, ?_, ?_⟩
  · exact List.sorted_insertionSort itemDescRel _
  · exact List.sorted_insertionSort itemDescRel _
  · intro j hj
    rcases task_result_mem_pool scoreFn endpointFor ws ps hws hps j hj with h | h
    · exact Or.inl ((List.mem_insertionSort itemDescRel).mpr h)
    · exact Or.inr ((List.mem_insertionSort itemDescRel).mpr h)
  · intro v hv
    have h1 := (List.mem_insertionSort itemDescRel).mp hv
    rw [finalWorkPool, List.mem_filter] at h1
    exact of_decide_eq_true h1.2
  · intro v hv
    have h1 := (List.mem_insertionSort itemDescRel).mp hv
    rw [finalProjPool, List.mem_filter] at h1
    exact of_decide_eq_true h1.2
  · intro endpoint it ty
    obtain ⟨f1, f2, _, _, _, f6, _⟩ := summarize_item_fields endpoint it ty
    exact ⟨f1, f2, f6⟩

/-- Witness for C8: the concrete one-work-one-project run succeeds with
sorted final lists in which every task result appears. -/
theorem C8_reassembly_witness :
    WorkSourceWf [wWorkItem] ∧ ProjSourceWf [wProjItem] ∧
    ∃ resp, rank_core wScoreFn wEndpointFor [wWorkItem] [wProjItem] = Except.ok resp ∧
      resp.top_work_experiences.Pairwise itemDescRel ∧
      resp.top_projects.Pairwise itemDescRel ∧
      (∀ v ∈ resp.top_work_experiences, workMatch (workIdsOf wScoreFn [wWorkItem] [wProjItem]) v) := by
  obtain ⟨resp, h1, h2, h3, _, h5, _⟩ :=
    C8_reassembly wScoreFn wEndpointFor [wWorkItem] [wProjItem] (by decide) (by decide)
  exact ⟨by decide, by decide, resp, h1, h2, h3, h5⟩

/-! ### Claim C1 (partial-failure tolerance, amended) -/

/-- Claim C1 (amended): on a well-formed run in which the endpoint of task
`i` fails on every attempt, that task returns its item completely unchanged
(the pre-summarization bullets and the ranking score included, the item
being a stored item with only its ranking score assigned); the batch is not
aborted — the pipeline still returns a success response; the failed item
appears in the final response; and the result of every sibling task also
appears in the final response. No success flag is written anywhere: the
failure is only logged, which `ResuMatch.C1_counterexample` records. -/
theorem C1_partial_failure (scoreFn : ℕ → ℚ) (endpointFor : ℕ → Endpoint) (ws ps : List Item)
    (hws : WorkSourceWf ws) (hps : ProjSourceWf ps)
    (i : ℕ) (hi : i < (pipelineTasks scoreFn ws ps).length)
    (hfail : ∀ req n, ∃ e, endpointFor i req n = ApiOutcome.err e) :
    summarize_item (endpointFor i) ((pipelineTasks scoreFn ws ps).get ⟨i, hi⟩).1
        ((pipelineTasks scoreFn ws ps).get ⟨i, hi⟩).2
      = ((pipelineTasks scoreFn ws ps).get ⟨i, hi⟩).1 ∧
    (∃ idx orig, (orig ∈ ws ∨ orig ∈ ps) ∧
      ((pipelineTasks scoreFn ws ps).get ⟨i, hi⟩).1
        = { orig with score := some (scoreFn idx) }) ∧
    ∃ resp, rank_core scoreFn endpointFor ws ps = Except.ok resp ∧
      (((pipelineTasks scoreFn ws ps).get ⟨i, hi⟩).1 ∈ resp.top_work_experiences ∨
       ((pipelineTasks scoreFn ws ps).get ⟨i, hi⟩).1 ∈ resp.top_projects) ∧
      (∀ j (hj : j < (pipelineTasks scoreFn ws ps).length),
        summarize_item (endpointFor j) ((pipelineTasks scoreFn ws ps).get ⟨j, hj⟩).1
            ((pipelineTasks scoreFn ws ps).get ⟨j, hj⟩).2 ∈ resp.top_work_experiences ∨
        summarize_item (endpointFor j) ((pipelineTasks scoreFn ws ps).get ⟨j, hj⟩).1
            ((pipelineTasks scoreFn ws ps).get ⟨j, hj⟩).2 ∈ resp.top_projects) := by
  have hunchanged := summarize_item_of_fail (endpointFor i)
    ((pipelineTasks scoreFn ws ps).get ⟨i, hi⟩).1
    ((pipelineTasks scoreFn ws ps).get ⟨i, hi⟩).2 hfail
  have htmem : (pipelineTasks scoreFn ws ps).get ⟨i, hi⟩ ∈ pipelineTasks scoreFn ws ps :=
    List.get_mem _ _ _
  have horig : ∃ idx orig, (orig ∈ ws ∨ orig ∈ ps) ∧
      ((pipelineTasks scoreFn ws ps).get ⟨i, hi⟩).1
        = { orig with score := some (scoreFn idx) } := by
    rcases mem_pipelineTasks htmem with ⟨_, hit⟩ | ⟨_, hit⟩
    · obtain ⟨idx, w, hw, he⟩ := mem_topWorkItems hit
      exact ⟨idx, w, Or.inl hw, he⟩
    · obtain ⟨idx, p, hp, he⟩ := mem_topProjectItems hit
      exact ⟨idx, p, Or.inr hp, he⟩
  refine ⟨hunchanged, horig, _, rank_core_run scoreFn endpointFor ws ps hws hps, ?_, ?_⟩
  · rcases task_result_mem_pool scoreFn endpointFor ws ps hws hps i hi with h | h
    · rw [hunchanged] at h
      exact Or.inl ((List.mem_insertionSort itemDescRel).mpr h)
    · rw [hunchanged] at h
      exact Or.inr ((List.mem_insertionSort itemDescRel).mpr h)
  · intro j hj
    rcases task_result_mem_pool scoreFn endpointFor ws ps hws hps j hj with h | h
    · exact Or.inl ((List.mem_insertionSort itemDescRel).mpr h)
    · exact Or.inr ((List.mem_insertionSort itemDescRel).mpr h)

/-- Claim C1, counterexample: the fan-out result for a concrete item whose
endpoint fails on every attempt is the unchanged item; it carries no
success entry, so success is not marked false as the claim states. -/
theorem C1_counterexample :
    (∀ req n, wFailEndpoint req n = ApiOutcome.err "boom") ∧
    summarize_item wFailEndpoint wWorkItem "work experience" = wWorkItem ∧
    (summarize_item wFailEndpoint wWorkItem "work experience").success ≠ some false :=
  ⟨fun _ _ => rfl, by decide, by decide⟩

/-- Witness for C1: on the concrete run whose first task always fails, the
failed item is returned unchanged, the batch succeeds, and the failed item
appears in the final response. -/
theorem C1_partial_failure_witness :
    summarize_item (wEndpointFor 0)
        ((pipelineTasks wScoreFn [wWorkItem] [wProjItem]).get ⟨0, by decide⟩).1
        ((pipelineTasks wScoreFn [wWorkItem] [wProjItem]).get ⟨0, by decide⟩).2
      = ((pipelineTasks wScoreFn [wWorkItem] [wProjItem]).get ⟨0, by decide⟩).1 ∧
    ∃ resp, rank_core wScoreFn wEndpointFor [wWorkItem] [wProjItem] = Except.ok resp ∧
      (((pipelineTasks wScoreFn [wWorkItem] [wProjItem]).get ⟨0, by decide⟩).1
          ∈ resp.top_work_experiences ∨
       ((pipelineTasks wScoreFn [wWorkItem] [wProjItem]).get ⟨0, by decide⟩).1
          ∈ resp.top_projects) := by
  obtain ⟨h1, h2, resp, h3, h4, h5⟩ :=
    C1_partial_failure wScoreFn wEndpointFor [wWorkItem] [wProjItem] (by decide) (by decide)
      0 (by decide) (fun req n => ⟨"boom", rfl⟩)
  exact ⟨h1, resp, h3, h4⟩

end ResuMatch
